import Mathlib

set_option maxHeartbeats 1000000

namespace Emission

/-!
Shallow embedding of the two non-trivial pieces of the repository:

* the async render-state resolver factory (`src/unnamed/part_001`), which maps a
  Relay ready state (`error` / `props` / neither) to a renderable element, with a
  closed-over `retrying` flag implementing one-shot retry-button suppression and a
  best-effort JSON diagnostic on the error path;
* the tracking schema and dispatcher (`src/unnamed/part_000`): the `Schema`
  enumerations and the `pageViewTrack` wrapper that installs the native event sink
  as dispatch hook with `dispatchOnMount`.

JavaScript objects are embedded as association lists from string keys to values of
an abstract value type; the object spread used for prop merging is embedded key-wise.
Potentially-throwing host calls (`JSON.parse`) are embedded in the `Except` monad so
that an uncaught failure would surface as `.error`.
-/

/-- A JavaScript-style shallow object: an association list from string keys to values. -/
abbrev JsObject (V : Type) := List (String × V)

/-- The object spread `{...a, ...b}` of two shallow objects: keys of `a` keep their
position but take `b`'s value when `b` also binds the key; keys bound only in `b`
are appended in their order. Models `<Container {...initialProps} {...props} />`. -/
def jsSpread {V : Type} (a b : JsObject V) : JsObject V :=
  a.map (fun kv => (kv.1, (b.lookup kv.1).getD kv.2)) ++
    b.filter (fun kv => (a.lookup kv.1).isNone)

/-- The slice of a fetch `Response` the resolver inspects: the `_bodyInit` field.
`none` models an absent field, `some s` a string body (the empty string is falsy). -/
structure NetworkResponse where
  bodyInit : Option String
deriving DecidableEq

/-- The slice of the error value the resolver inspects: `message` and the optional
carried network `response`. -/
structure NetworkError where
  message : String
  response : Option NetworkResponse
deriving DecidableEq

/-- The Relay ready state destructured by the resolver: `{ error, props, retry }`.
`V` is the prop value type, `R` the type of the externally supplied retry callback. -/
structure ReadyState (V R : Type) where
  error : Option NetworkError
  props : Option (JsObject V)
  retry : R
deriving DecidableEq

/-- The inline style object `{ flex: 1 }` shared by the failure view and spinner. -/
structure Style where
  flex : Nat
deriving DecidableEq

/-- The fixed full-bleed style literal `{ flex: 1 }`. -/
def flex1 : Style := ⟨1⟩

/-- The renderable elements the resolver can return: `LoadFailureView` (with the
`onRetry` prop either supplied or absent), `Spinner`, or the wrapped container
rendered with the merged props. -/
inductive Renderable (V R : Type) where
  | loadFailureView (onRetry : Option R) (style : Style)
  | spinner (style : Style)
  | container (props : JsObject V)
deriving DecidableEq

/-- The second argument `console.error` receives on the error path: the parsed JSON
value when `JSON.parse` succeeded, or the raw string when it threw and the exception
was caught. `J` is the type of parsed JSON values. -/
inductive LogData (J : Type) where
  | parsed (j : J)
  | raw (s : String)
deriving DecidableEq

/-- One `console.error` call: the formatted message and the data argument. -/
structure LogEntry (J : Type) where
  message : String
  data : LogData J
deriving DecidableEq

/-- The error-path diagnostic block (part_001 lines 14-22), in the `Except` monad:
`parse` embeds `JSON.parse` (which may throw, i.e. return `.error`); the `match` on
its result is the `try`/`catch` that swallows the failure and keeps the raw string.
The guard requires `response` present and `_bodyInit` truthy (a non-empty string);
`_bodyInit || "\x7b\x7d"` is the JavaScript or-default. -/
def errorDiagnostics {E J : Type} (parse : String → Except E J) (err : NetworkError) :
    Except E (List (LogEntry J)) :=
  match err.response with
  | some resp =>
    match resp.bodyInit with
    | some body =>
      if body ≠ "" then
        let data0 := if body ≠ "" then body else "\x7b\x7d"
        let data : LogData J :=
          match parse data0 with
          | .ok j => .parsed j
          | .error _ => .raw data0
        .ok [⟨"Metaphysics Error: " ++ err.message ++ "\n", data⟩]
      else .ok []
    | none => .ok []
  | none => .ok []

/-- One call of the function returned by the resolver factory (part_001 lines 12-41):
given the closed-over `retrying` flag and the ready state, produce the returned
element (an `Option` because the declared return type admits `null`), the updated
flag, and the console log, in the `Except` monad threaded from the diagnostics. -/
def resolveStep {V R E J : Type} (parse : String → Except E J)
    (initialProps : JsObject V) (retrying : Bool) (rs : ReadyState V R) :
    Except E (Option (Renderable V R) × Bool × List (LogEntry J)) :=
  match rs.error with
  | some err =>
    (errorDiagnostics parse err).bind fun log =>
      if retrying then
        .ok (some (.loadFailureView none flex1), false, log)
      else
        .ok (some (.loadFailureView (some rs.retry) flex1), true, log)
  | none =>
    match rs.props with
    | some p => .ok (some (.container (jsSpread initialProps p)), retrying, [])
    | none => .ok (some (.spinner flex1), retrying, [])

/-- Run a resolver over a sequence of ready states from a given flag value,
collecting the returned elements in order together with the final flag. -/
def runResolver {V R E J : Type} (parse : String → Except E J)
    (initialProps : JsObject V) : Bool → List (ReadyState V R) →
    Except E (List (Option (Renderable V R)) × Bool)
  | retrying, [] => .ok ([], retrying)
  | retrying, rs :: rest =>
    (resolveStep parse initialProps retrying rs).bind fun out =>
      (runResolver parse initialProps out.2.1 rest).map fun tail =>
        (out.1 :: tail.1, tail.2)

/-! ## Tracking schema (part_000, `Schema` namespace) -/

namespace Schema

/-- The screen-name enumeration `Schema.PageNames` (part_000 lines 84-92). -/
inductive PageNames where
  | ArtistPage
  | ConversationPage
  | ConsignmentsWelcome
  | ConsignmentsOverView
  | ConsignmentsSubmission
  | InboxPage
  | InquiryPage
deriving DecidableEq, Fintype

/-- The string value each `PageNames` member denotes. -/
def PageNames.value : PageNames → String
  | .ArtistPage => "Artist"
  | .ConversationPage => "Conversation"
  | .ConsignmentsWelcome => "ConsignmentsWelcome"
  | .ConsignmentsOverView => "ConsignmentsOverview"
  | .ConsignmentsSubmission => "ConsignmentsSubmit"
  | .InboxPage => "Inbox"
  | .InquiryPage => "Inquiry"

/-- The entity-kind enumeration `Schema.OwnerEntityTypes` (part_000 lines 94-102). -/
inductive OwnerEntityTypes where
  | Artist
  | Artwork
  | Conversation
  | Gene
  | Show
  | Invoice
  | Consignment
deriving DecidableEq, Fintype

/-- The string value each `OwnerEntityTypes` member denotes. -/
def OwnerEntityTypes.value : OwnerEntityTypes → String
  | .Artist => "Artist"
  | .Artwork => "Artwork"
  | .Conversation => "Conversation"
  | .Gene => "Gene"
  | .Show => "Show"
  | .Invoice => "Invoice"
  | .Consignment => "ConsignmentSubmission"

/-- The seven members of `OwnerEntityTypes`, in declaration order. -/
def OwnerEntityTypes.all : List OwnerEntityTypes :=
  [.Artist, .Artwork, .Conversation, .Gene, .Show, .Invoice, .Consignment]

/-- The action-type enumeration `Schema.ActionTypes` (part_000 lines 104-115). -/
inductive ActionTypes where
  | Tap
  | Fail
  | Success
deriving DecidableEq, Fintype

/-- The string value each `ActionTypes` member denotes. -/
def ActionTypes.value : ActionTypes → String
  | .Tap => "tap"
  | .Fail => "fail"
  | .Success => "success"

/-- The action-name enumeration `Schema.ActionNames` (part_000 lines 120-144). -/
inductive ActionNames where
  | ArtistFollow
  | ArtistUnfollow
  | ConversationSelected
  | ConversationSendReply
  | ConversationAttachmentShow
  | ConversationAttachmentArtwork
  | ConversationAttachmentInvoice
  | ConversationLink
  | InquiryCancel
  | InquirySend
  | ConsignmentDraftCreated
  | ConsignmentSubmitted
deriving DecidableEq, Fintype

/-- The global tracking-info keys `Schema.Global` (part_000 lines 17-41). The
optional `additional_properties` is an open mapping of extra context, embedded
over an abstract value type `V`. -/
structure Global (V : Type) where
  action_type : ActionTypes
  action_name : ActionNames
  additional_properties : Option (JsObject V)

/-- An `Entity`-flavored event record, `Schema.Entity` (part_000 lines 43-58):
the global keys plus owner identification. -/
structure Entity (V : Type) extends Global V where
  owner_id : String
  owner_slug : String
  owner_type : OwnerEntityTypes

/-- A page-view record, `Schema.PageView` (part_000 lines 60-82). -/
structure PageView where
  context_screen : PageNames
  context_screen_owner_slug : Option String
  context_screen_owner_id : Option String
  context_screen_owner_type : OwnerEntityTypes
deriving DecidableEq

end Schema

/-! ## Dispatcher (part_000, `pageViewTrack` and the native sink) -/

/-- The native event sink `Events.postEvent` (fire-and-forget, no return value):
its observable effect is appending the posted record to the sink's call list.
`A` is the event-record type. -/
def postEvent {A : Type} (calls : List A) (data : A) : List A :=
  calls ++ [data]

/-- The dispatch hook `pageViewTrack` installs (part_000 line 274):
`data => Events.postEvent(data)`, forwarding the record unchanged to the sink. -/
def pageViewDispatch {A : Type} (calls : List A) (data : A) : List A :=
  postEvent calls data

/-- Successive dispatches through the hook, in call order. -/
def dispatchAll {A : Type} (calls : List A) (records : List A) : List A :=
  records.foldl pageViewDispatch calls

/-- The options record `pageViewTrack` hands to the instrumentation facility:
a dispatch hook and the `dispatchOnMount` switch. -/
structure TrackOptions (A : Type) where
  dispatch : List A → A → List A
  dispatchOnMount : Bool

/-- The configuration `pageViewTrack` passes to `_track` (part_000 lines 273-276):
the `Events.postEvent` forwarding hook as `dispatch`, and `dispatchOnMount := true`. -/
def pageViewTrackConfig {A : Type} : TrackOptions A :=
  { dispatch := pageViewDispatch, dispatchOnMount := true }

/-- A lifecycle event of one mounted component instance: the initial mount with its
incoming properties, or a subsequent property update. -/
inductive LifecycleEvent (P : Type) where
  | mounted (props : P)
  | updated (props : P)

/-- Modelled from the spec: the `react-tracking` instrumentation facility that
`pageViewTrack` configures is a third-party library, not part of this repository.
Per the spec, the page-view variant "on every mount of the wrapped component,
unconditionally computes one page-view record (as a pure function of incoming
properties) and dispatches it exactly once, with no further dispatches on update".
This runs one wrapped component instance over its lifecycle events: on a mount it
invokes the configured dispatch hook with the record computed from the incoming
properties exactly when `dispatchOnMount` is set, and on an update it dispatches
nothing; `calls` accumulates the sink's call list. -/
def runTrackedLifecycle {A P : Type} (opts : TrackOptions A) (trackingInfo : P → A)
    (calls : List A) : List (LifecycleEvent P) → List A
  | [] => calls
  | .mounted p :: rest =>
    runTrackedLifecycle opts trackingInfo
      (if opts.dispatchOnMount then opts.dispatch calls (trackingInfo p) else calls) rest
  | .updated _ :: rest => runTrackedLifecycle opts trackingInfo calls rest

/-! ## Helper lemmas -/

/-- The log the error-path diagnostics produce, as a pure value: one entry when the
response carries a truthy body (its data the parsed JSON, or the raw body when the
parse failed and was caught), no entry otherwise. -/
def diagLog {E J : Type} (parse : String → Except E J) (err : NetworkError) :
    List (LogEntry J) :=
  match err.response with
  | some resp =>
    match resp.bodyInit with
    | some body =>
      if body ≠ "" then
        [⟨"Metaphysics Error: " ++ err.message ++ "\n",
          match parse body with
          | .ok j => .parsed j
          | .error _ => .raw body⟩]
      else []
    | none => []
  | none => []

/-- The diagnostics never propagate a parse failure: they always succeed, with
`diagLog` as the produced log. -/
lemma errorDiagnostics_eq_ok {E J : Type} (parse : String → Except E J)
    (err : NetworkError) : errorDiagnostics parse err = .ok (diagLog parse err) := by
  obtain ⟨msg, response⟩ := err
  cases response with
  | none => rfl
  | some resp =>
    obtain ⟨bodyInit⟩ := resp
    cases bodyInit with
    | none => rfl
    | some body =>
      by_cases h : body = "" <;> simp [errorDiagnostics, diagLog, h]

/-- The resolver on an error input: a failure view whose `onRetry` prop is supplied
exactly when the flag was clear, the flag flipped, and the diagnostic log. -/
lemma resolveStep_error {V R E J : Type} (parse : String → Except E J)
    (initialProps : JsObject V) (b : Bool) (rs : ReadyState V R) (err : NetworkError)
    (he : rs.error = some err) :
    resolveStep parse initialProps b rs =
      .ok (some (.loadFailureView (if b then none else some rs.retry) flex1), !b,
        diagLog parse err) := by
  cases b <;>
    simp [resolveStep, he, errorDiagnostics_eq_ok, Except.bind]

/-- The resolver on a props input: the container with the spread-merged props,
flag unchanged, no log. -/
lemma resolveStep_props {V R E J : Type} (parse : String → Except E J)
    (initialProps : JsObject V) (b : Bool) (rs : ReadyState V R) (p : JsObject V)
    (he : rs.error = none) (hp : rs.props = some p) :
    resolveStep parse initialProps b rs =
      .ok (some (.container (jsSpread initialProps p)), b, []) := by
  simp [resolveStep, he, hp]

/-- The resolver on a loading input: the spinner, flag unchanged, no log. -/
lemma resolveStep_loading {V R E J : Type} (parse : String → Except E J)
    (initialProps : JsObject V) (b : Bool) (rs : ReadyState V R)
    (he : rs.error = none) (hp : rs.props = none) :
    resolveStep parse initialProps b rs = .ok (some (.spinner flex1), b, []) := by
  simp [resolveStep, he, hp]

/-- Looking a key up in an appended association list: the left list wins. -/
lemma lookup_append {V : Type} (l1 l2 : JsObject V) (k : String) :
    (l1 ++ l2).lookup k = (l1.lookup k).or (l2.lookup k) := by
  induction l1 with
  | nil => simp [List.lookup]
  | cons kv rest ih =>
    obtain ⟨k0, v0⟩ := kv
    by_cases h : k = k0
    · subst h; simp [List.lookup]
    · have hb : (k == k0) = false := by simp [h]
      simp [List.lookup, hb, ih]

/-- Looking a key up in the override part of the spread: the entry is present iff
the key is in `a`, with `b`'s value when `b` also binds it. -/
lemma lookup_map_override {V : Type} (a b : JsObject V) (k : String) :
    (a.map (fun kv => (kv.1, (b.lookup kv.1).getD kv.2))).lookup k
      = (a.lookup k).map (fun v => (b.lookup k).getD v) := by
  induction a with
  | nil => rfl
  | cons kv rest ih =>
    obtain ⟨k0, v0⟩ := kv
    by_cases h : k = k0
    · subst h; simp [List.lookup]
    · have hb : (k == k0) = false := by simp [h]
      simp [List.lookup, hb, ih]

/-- Looking a key up after filtering by a predicate on keys. -/
lemma lookup_filter_keys {V : Type} (p : String → Bool) (b : JsObject V) (k : String) :
    (b.filter (fun kv => p kv.1)).lookup k = if p k then b.lookup k else none := by
  induction b with
  | nil => simp [List.lookup]
  | cons kv rest ih =>
    obtain ⟨k0, v0⟩ := kv
    by_cases hp : p k0
    · by_cases h : k = k0
      · subst h; simp [List.filter, hp, List.lookup]
      · have hb : (k == k0) = false := by simp [h]
        simp [List.filter, hp, List.lookup, hb, ih]
    · by_cases h : k = k0
      · subst h; simp [List.filter, hp, List.lookup, ih]
      · have hb : (k == k0) = false := by simp [h]
        simp [List.filter, hp, List.lookup, hb, ih]

/-- The spread `{...a, ...b}` is the shallow merge in which `b` wins on every key
collision: looking up any key finds `b`'s binding first, then `a`'s. -/
lemma jsSpread_lookup {V : Type} (a b : JsObject V) (k : String) :
    (jsSpread a b).lookup k = (b.lookup k).or (a.lookup k) := by
  unfold jsSpread
  rw [lookup_append, lookup_map_override, lookup_filter_keys (fun x => (a.lookup x).isNone)]
  cases a.lookup k <;> cases b.lookup k <;> simp

/-- Dispatching a batch of records appends them to the sink's call list in order:
one sink call per record, none dropped, none deduplicated. -/
lemma dispatchAll_eq_append {A : Type} (calls records : List A) :
    dispatchAll calls records = calls ++ records := by
  induction records generalizing calls with
  | nil => simp [dispatchAll]
  | cons r rest ih =>
    have h := ih (calls ++ [r])
    simpa [dispatchAll, pageViewDispatch, postEvent] using h

/-- A lifecycle consisting only of updates dispatches nothing. -/
lemma runTrackedLifecycle_updates {A P : Type} (opts : TrackOptions A)
    (trackingInfo : P → A) (calls : List A) (evs : List (LifecycleEvent P))
    (h : ∀ e ∈ evs, ∃ q, e = LifecycleEvent.updated q) :
    runTrackedLifecycle opts trackingInfo calls evs = calls := by
  induction evs with
  | nil => rfl
  | cons e rest ih =>
    obtain ⟨q, rfl⟩ := h e (List.mem_cons_self e rest)
    exact ih fun e he => h e (List.mem_cons_of_mem _ he)

/-! ## Concrete instances for witnesses -/

/-- A concrete `JSON.parse` embedding that fails on every input, as a malformed
body would make the real one do. -/
def demoParse : String → Except String Unit :=
  fun _ => .error "SyntaxError: Unexpected token"

/-- A concrete error ready state whose error carries no response. -/
def demoError : ReadyState Int Nat :=
  ⟨some ⟨"boom", none⟩, none, 0⟩

/-- A concrete error ready state whose error carries a response with a malformed
JSON body. -/
def demoBodyError : ReadyState Int Nat :=
  ⟨some ⟨"boom", some ⟨some "not-json"⟩⟩, none, 0⟩

/-- A concrete successful ready state delivering props. -/
def demoProps : ReadyState Int Nat :=
  ⟨none, some [("a", 2), ("b", 3)], 0⟩

/-- A concrete loading ready state: neither error nor props. -/
def demoLoading : ReadyState Int Nat :=
  ⟨none, none, 0⟩

/-! ## Claims -/

/-- Claim C1: for a freshly created resolver (closed-over `retrying` flag starting
`false`), an error input while the flag is clear yields a failure view carrying the
supplied retry callback and the fixed `flex: 1` style and sets the flag; an error
input while the flag is set yields a failure view with no retry callback (same
style) and clears the flag. In particular the input sequence `[error, error,
props]` yields: failure view WITH retry, failure view WITHOUT retry, then the
hydrated container with `initialProps` merged under the delivered props. -/
theorem resolver_error_toggle_sequence {V R E J : Type}
    (parse : String → Except E J) (initialProps : JsObject V)
    (e1 e2 pr : ReadyState V R) (err1 err2 : NetworkError) (pp : JsObject V)
    (h1 : e1.error = some err1) (h2 : e2.error = some err2)
    (hp : pr.error = none) (hpp : pr.props = some pp) :
    (∀ (rs : ReadyState V R) (err : NetworkError), rs.error = some err →
      (∃ log, resolveStep parse initialProps false rs =
        .ok (some (.loadFailureView (some rs.retry) flex1), true, log)) ∧
      (∃ log, resolveStep parse initialProps true rs =
        .ok (some (.loadFailureView none flex1), false, log))) ∧
    runResolver parse initialProps false [e1, e2, pr] =
      .ok ([some (.loadFailureView (some e1.retry) flex1),
            some (.loadFailureView none flex1),
            some (.container (jsSpread initialProps pp))], false) := by
  constructor
  · intro rs err he
    exact ⟨⟨diagLog parse err, resolveStep_error parse initialProps false rs err he⟩,
           ⟨diagLog parse err, resolveStep_error parse initialProps true rs err he⟩⟩
  · simp [runResolver, resolveStep_error parse initialProps false e1 err1 h1,
      resolveStep_error parse initialProps true e2 err2 h2,
      resolveStep_props parse initialProps false pr pp hp hpp, Except.bind, Except.map]

/-- Witness for C1 at concrete inputs: the sequence
`[demoBodyError, demoError, demoProps]` from a fresh resolver. -/
theorem resolver_error_toggle_sequence_witness :
    runResolver demoParse ([("a", (1 : Int))]) false [demoBodyError, demoError, demoProps] =
      .ok ([some (.loadFailureView (some demoBodyError.retry) flex1),
            some (.loadFailureView none flex1),
            some (.container (jsSpread [("a", (1 : Int))] [("a", 2), ("b", 3)]))], false) :=
  (resolver_error_toggle_sequence demoParse [("a", (1 : Int))] demoBodyError demoError
    demoProps ⟨"boom", some ⟨some "not-json"⟩⟩ ⟨"boom", none⟩ [("a", 2), ("b", 3)]
    rfl rfl rfl rfl).2

/-- Claim C2 counterexample: the function returned by the factory is NOT a pure
function of its ready-state argument: two successive calls of a fresh resolver on
the very same error ready state produce different outputs (first a failure view
with the retry callback, then one without). -/
theorem resolver_same_input_determinism_cex :
    runResolver demoParse ([] : JsObject Int) false [demoError, demoError] =
      .ok ([some (.loadFailureView (some 0) flex1),
            some (.loadFailureView none flex1)], false) ∧
    (some (Renderable.loadFailureView (some 0) flex1) : Option (Renderable Int Nat)) ≠
      some (Renderable.loadFailureView none flex1) := by
  refine ⟨rfl, by decide⟩

/-- Claim C2 (amended): the resolver is a pure function of the ready state only on
inputs without an error: there its full result (output, flag, log) is independent
of the hidden flag and leaves the flag unchanged. On an error input the output
additionally depends on the closed-over `retrying` flag, which every error call
toggles, so two successive calls on the same error input return different outputs
(with, then without, the retry callback). -/
theorem resolver_purity_amended {V R E J : Type}
    (parse : String → Except E J) (initialProps : JsObject V) (b b2 : Bool)
    (rs : ReadyState V R) :
    (rs.error = none →
      (resolveStep parse initialProps b rs).map (fun o => o.1) =
        (resolveStep parse initialProps b2 rs).map (fun o => o.1) ∧
      ∃ out, resolveStep parse initialProps b rs = .ok (out, b, [])) ∧
    (∀ err, rs.error = some err →
      runResolver parse initialProps false [rs, rs] =
        .ok ([some (.loadFailureView (some rs.retry) flex1),
              some (.loadFailureView none flex1)], false) ∧
      some (Renderable.loadFailureView (some rs.retry) flex1) ≠
        (some (Renderable.loadFailureView none flex1) : Option (Renderable V R))) := by
  constructor
  · intro he
    cases hp : rs.props with
    | some p =>
      rw [resolveStep_props parse initialProps b rs p he hp,
        resolveStep_props parse initialProps b2 rs p he hp]
      exact ⟨rfl, ⟨_, rfl⟩⟩
    | none =>
      rw [resolveStep_loading parse initialProps b rs he hp,
        resolveStep_loading parse initialProps b2 rs he hp]
      exact ⟨rfl, ⟨_, rfl⟩⟩
  · intro err he
    refine ⟨?_, by simp⟩
    simp [runResolver, resolveStep_error parse initialProps false rs err he,
      resolveStep_error parse initialProps true rs err he, Except.bind, Except.map]

/-- Witness for the amended C2 at concrete inputs: a loading state resolved under
both flag values, and the double error call. -/
theorem resolver_purity_amended_witness :
    ((resolveStep demoParse ([] : JsObject Int) false demoLoading).map (fun o => o.1) =
      (resolveStep demoParse ([] : JsObject Int) true demoLoading).map (fun o => o.1)) ∧
    runResolver demoParse ([] : JsObject Int) false [demoError, demoError] =
      .ok ([some (.loadFailureView (some demoError.retry) flex1),
            some (.loadFailureView none flex1)], false) :=
  ⟨((resolver_purity_amended demoParse ([] : JsObject Int) false true demoLoading).1 rfl).1,
   ((resolver_purity_amended demoParse ([] : JsObject Int) false true
      demoError).2 ⟨"boom", none⟩ rfl).1⟩

/-- Claim C3: on an input with props present and no error, the resolver returns the
wrapped container rendered with `initialProps` shallow-merged under the delivered
props; the delivered props win on every key collision (for every key, lookup in the
merge finds the delivered binding first); and the spec's example holds:
`initialProps = [a ↦ 1]` merged with delivered `[a ↦ 2, b ↦ 3]` is `[a ↦ 2, b ↦ 3]`. -/
theorem resolver_props_merge {V R E J : Type}
    (parse : String → Except E J) (initialProps : JsObject V) (b : Bool)
    (rs : ReadyState V R) (p : JsObject V)
    (he : rs.error = none) (hp : rs.props = some p) :
    resolveStep parse initialProps b rs =
      .ok (some (.container (jsSpread initialProps p)), b, []) ∧
    (∀ k, (jsSpread initialProps p).lookup k = (p.lookup k).or (initialProps.lookup k)) ∧
    jsSpread [("a", (1 : Int))] [("a", 2), ("b", 3)] = [("a", 2), ("b", 3)] := by
  refine ⟨resolveStep_props parse initialProps b rs p he hp,
    fun k => jsSpread_lookup initialProps p k, by decide⟩

/-- Witness for C3 at concrete inputs: `initialProps = [a ↦ 1]`, delivered
props `[a ↦ 2, b ↦ 3]`. -/
theorem resolver_props_merge_witness :
    resolveStep demoParse [("a", (1 : Int))] false demoProps =
      .ok (some (.container (jsSpread [("a", (1 : Int))] [("a", 2), ("b", 3)])),
        false, []) :=
  (resolver_props_merge demoParse [("a", (1 : Int))] false demoProps
    [("a", 2), ("b", 3)] rfl rfl).1

/-- Claim C4: on an error input whose carried response exposes a (truthy) body
payload, the resolver attempts to parse the body as JSON for diagnostic logging,
and a parse failure is swallowed: for EVERY parse function — including ones that
always fail — the resolver returns `.ok` (it never throws), its output is still a
failure view, and the single log entry records the parsed value on success or the
raw body on a swallowed failure. -/
theorem resolver_parse_failure_swallowed {V R E J : Type}
    (parse : String → Except E J) (initialProps : JsObject V) (b : Bool)
    (rs : ReadyState V R) (err : NetworkError) (resp : NetworkResponse) (body : String)
    (he : rs.error = some err) (hr : err.response = some resp)
    (hb : resp.bodyInit = some body) (hne : body ≠ "") :
    ∃ onRetry,
      resolveStep parse initialProps b rs =
        .ok (some (.loadFailureView onRetry flex1), !b,
          [⟨"Metaphysics Error: " ++ err.message ++ "\n",
            match parse body with
            | .ok j => .parsed j
            | .error _ => .raw body⟩]) := by
  refine ⟨if b then none else some rs.retry, ?_⟩
  rw [resolveStep_error parse initialProps b rs err he]
  obtain ⟨msg, response⟩ := err
  simp only at hr
  subst hr
  simp [diagLog, hb, hne]

/-- Witness for C4 at concrete inputs: an always-failing parse on an error whose
response body is the non-JSON string "not-json"; the log keeps the raw body. -/
theorem resolver_parse_failure_swallowed_witness :
    ∃ onRetry,
      resolveStep demoParse ([] : JsObject Int) false demoBodyError =
        .ok (some (.loadFailureView onRetry flex1), true,
          [⟨"Metaphysics Error: " ++ "boom" ++ "\n",
            match demoParse "not-json" with
            | .ok j => .parsed j
            | .error _ => .raw "not-json"⟩]) :=
  resolver_parse_failure_swallowed demoParse ([] : JsObject Int) false demoBodyError
    ⟨"boom", some ⟨some "not-json"⟩⟩ ⟨some "not-json"⟩ "not-json"
    rfl rfl rfl (by decide)

/-- Claim C7: on an input with neither error nor props (loading), the resolver
returns the Spinner with the fixed `flex: 1` full-bleed style — literally the same
style constant the failure view uses — and the flag and log are untouched. -/
theorem resolver_loading_spinner {V R E J : Type}
    (parse : String → Except E J) (initialProps : JsObject V) (b : Bool)
    (rs : ReadyState V R)
    (he : rs.error = none) (hp : rs.props = none) :
    resolveStep parse initialProps b rs = .ok (some (.spinner flex1), b, []) ∧
    flex1.flex = 1 :=
  ⟨resolveStep_loading parse initialProps b rs he hp, rfl⟩

/-- Witness for C7 at the concrete loading state `{}`. -/
theorem resolver_loading_spinner_witness :
    resolveStep demoParse ([] : JsObject Int) false demoLoading =
      .ok (some (.spinner flex1), false, []) :=
  (resolver_loading_spinner demoParse ([] : JsObject Int) false demoLoading rfl rfl).1

/-- Claim C9 (implicit frame effect): inputs with no error present — props or
loading — leave the closed-over `retrying` flag unchanged; and for the sequence
`[error, non-error, error]` from a fresh resolver, the second error's output is a
failure view WITHOUT a retry callback: the suppression is not reset by an
intervening success or loading state. -/
theorem resolver_nonerror_frame {V R E J : Type}
    (parse : String → Except E J) (initialProps : JsObject V) (b : Bool)
    (rs e1 mid e3 : ReadyState V R) (err1 err3 : NetworkError)
    (hne : rs.error = none)
    (h1 : e1.error = some err1) (hm : mid.error = none) (h3 : e3.error = some err3) :
    (∃ out log, resolveStep parse initialProps b rs = .ok (out, b, log)) ∧
    (∃ out2, runResolver parse initialProps false [e1, mid, e3] =
      .ok ([some (.loadFailureView (some e1.retry) flex1), out2,
            some (.loadFailureView none flex1)], false)) := by
  constructor
  · cases hp : rs.props with
    | some p =>
      exact ⟨_, _, resolveStep_props parse initialProps b rs p hne hp⟩
    | none =>
      exact ⟨_, _, resolveStep_loading parse initialProps b rs hne hp⟩
  · cases hp : mid.props with
    | some p =>
      refine ⟨some (.container (jsSpread initialProps p)), ?_⟩
      simp [runResolver, resolveStep_error parse initialProps false e1 err1 h1,
        resolveStep_props parse initialProps true mid p hm hp,
        resolveStep_error parse initialProps true e3 err3 h3, Except.bind, Except.map]
    | none =>
      refine ⟨some (.spinner flex1), ?_⟩
      simp [runResolver, resolveStep_error parse initialProps false e1 err1 h1,
        resolveStep_loading parse initialProps true mid hm hp,
        resolveStep_error parse initialProps true e3 err3 h3, Except.bind, Except.map]

/-- Witness for C9 at concrete inputs: a loading call keeps the flag, and the
sequence `[error, props, error]` ends in a failure view without retry. -/
theorem resolver_nonerror_frame_witness :
    (∃ out log, resolveStep demoParse ([] : JsObject Int) true demoLoading =
      .ok (out, true, log)) ∧
    (∃ out2, runResolver demoParse ([] : JsObject Int) false [demoError, demoProps, demoError] =
      .ok ([some (.loadFailureView (some demoError.retry) flex1), out2,
            some (.loadFailureView none flex1)], false)) :=
  resolver_nonerror_frame demoParse ([] : JsObject Int) true demoLoading demoError
    demoProps demoError ⟨"boom", none⟩ ⟨"boom", none⟩ rfl rfl rfl rfl

/-- Claim C10 (implicit): although the declared return type of the resolver admits
`null`, for every input of any of the three read-state shapes the returned element
is non-null: the result is always `.ok` with a `some` renderable. -/
theorem resolver_never_null {V R E J : Type}
    (parse : String → Except E J) (initialProps : JsObject V) (b : Bool)
    (rs : ReadyState V R) :
    ∃ r b2 log, resolveStep parse initialProps b rs = .ok (some r, b2, log) := by
  cases he : rs.error with
  | some err =>
    exact ⟨_, _, _, resolveStep_error parse initialProps b rs err he⟩
  | none =>
    cases hp : rs.props with
    | some p => exact ⟨_, _, _, resolveStep_props parse initialProps b rs p he hp⟩
    | none => exact ⟨_, _, _, resolveStep_loading parse initialProps b rs he hp⟩

/-- Claim C5: for a component wrapped with `pageViewTrack`, exactly one page-view
record — computed as a pure function of the incoming properties — is dispatched per
mount, and no further dispatch occurs on any subsequent property update of that
mounted instance: after a mount followed by updates only, the sink's call list has
grown by exactly the one record computed from the mount props. -/
theorem pageview_dispatch_once_per_mount {A P : Type}
    (trackingInfo : P → A) (calls : List A) (p : P) (evs : List (LifecycleEvent P))
    (hupd : ∀ e ∈ evs, ∃ q, e = LifecycleEvent.updated q) :
    runTrackedLifecycle pageViewTrackConfig trackingInfo calls
      (LifecycleEvent.mounted p :: evs) = calls ++ [trackingInfo p] := by
  have hstep : runTrackedLifecycle pageViewTrackConfig trackingInfo calls
      (LifecycleEvent.mounted p :: evs) =
      runTrackedLifecycle pageViewTrackConfig trackingInfo
        (calls ++ [trackingInfo p]) evs := rfl
  rw [hstep]
  exact runTrackedLifecycle_updates pageViewTrackConfig trackingInfo
    (calls ++ [trackingInfo p]) evs hupd

/-- Witness for C5 at concrete inputs: one mount followed by two property updates
dispatches exactly one record. -/
theorem pageview_dispatch_once_per_mount_witness :
    runTrackedLifecycle pageViewTrackConfig (fun n : Nat => n + 1) []
      [LifecycleEvent.mounted 41, LifecycleEvent.updated 5, LifecycleEvent.updated 6] =
      [] ++ [42] :=
  pageview_dispatch_once_per_mount (fun n : Nat => n + 1) [] 41
    [LifecycleEvent.updated 5, LifecycleEvent.updated 6]
    (by
      intro e he
      simp only [List.mem_cons, List.not_mem_nil, or_false] at he
      rcases he with rfl | rfl
      · exact ⟨5, rfl⟩
      · exact ⟨6, rfl⟩)

/-- Claim C6: every event record handed to the tracking wrapper's dispatch hook is
forwarded unchanged to the single native-bridge sink `Events.postEvent`, once per
dispatch, and dispatching is fire-and-forget appending in call order: a batch of
records produces exactly that batch of sink calls, so dispatching the same record
twice in a row produces two independent sink calls with no deduplication. -/
theorem dispatch_forwards_to_sink_no_dedup {A : Type}
    (calls : List A) (r : A) (records : List A) :
    pageViewDispatch calls r = postEvent calls r ∧
    postEvent calls r = calls ++ [r] ∧
    dispatchAll calls records = calls ++ records ∧
    dispatchAll calls [r, r] = calls ++ [r, r] :=
  ⟨rfl, rfl, dispatchAll_eq_append calls records, dispatchAll_eq_append calls [r, r]⟩

/-- Claim C8: the `owner_type` field of every `Entity`-flavored event record is
drawn from a closed enumeration of exactly seven entity kinds — Artist, Artwork,
Conversation, Gene, Show, Invoice, Consignment — each denoting one fixed string
value. -/
theorem owner_entity_types_closed_enumeration :
    (∀ t : Schema.OwnerEntityTypes, t ∈ Schema.OwnerEntityTypes.all) ∧
    Schema.OwnerEntityTypes.all.Nodup ∧
    Schema.OwnerEntityTypes.all.length = 7 ∧
    (∀ (V : Type) (ev : Schema.Entity V), ev.owner_type ∈ Schema.OwnerEntityTypes.all) ∧
    Schema.OwnerEntityTypes.value .Artist = "Artist" ∧
    Schema.OwnerEntityTypes.value .Artwork = "Artwork" ∧
    Schema.OwnerEntityTypes.value .Conversation = "Conversation" ∧
    Schema.OwnerEntityTypes.value .Gene = "Gene" ∧
    Schema.OwnerEntityTypes.value .Show = "Show" ∧
    Schema.OwnerEntityTypes.value .Invoice = "Invoice" ∧
    Schema.OwnerEntityTypes.value .Consignment = "ConsignmentSubmission" := by
  refine ⟨by decide, by decide, by decide, ?_,
    rfl, rfl, rfl, rfl, rfl, rfl, rfl⟩
  intro V ev
  cases ev.owner_type <;> simp [Schema.OwnerEntityTypes.all]

end Emission
